import Mathlib

/-!
Shallow embedding of the document-vault domain services
(`app/files/domain/service.py`, `app/authentication/domain/service.py`,
their persistence adapters and `app/authentication/models.py`).

Modelling conventions:
* `file_id` values (UUID strings in the source) are modelled as `Nat`s drawn
  from a fresh-id counter `nextId` carried in the state, so that the freshness
  of `uuid.uuid4()` is explicit.
* byte strings are `List Nat`; the object store is a partial map from file id
  to blob (the storage key `files/<id>.pdf` is derived from the id, as in
  `S3StorageService`).
* Python exceptions are the inductive `PyError`; the `FileError` hierarchy of
  `app/files/domain/exceptions.py` is the sub-family recognised by
  `PyError.isFileError`, while `valueError` models the builtin `ValueError`
  and `storeFailure` the generic `Exception`s raised by the storage adapter
  and the ORM.
* collaborator failures (S3 calls, the database write of `update_file_path`)
  are injected through a `Faults` record; the external PDF merger
  (`pypdf.PdfMerger`) is a parameter `combine` returning `none` when the
  library raises.
* timestamps (`created_at` / `updated_at`) are store-assigned (`auto_now`)
  and never read by any service operation, so they are omitted.
-/

namespace Vault

/-- Python exception values that can cross the service boundary. -/
inductive PyError where
  | fileNotFound (msg : String)
  | fileNotUploaded (msg : String)
  | unauthorizedFileAccess (msg : String)
  | fileMerge (msg : String)
  | valueError (msg : String)
  | storeFailure (msg : String)
deriving DecidableEq, Repr

/-- Whether the exception belongs to the `FileError` hierarchy of
`app/files/domain/exceptions.py` (a typed domain error), as opposed to the
builtin `ValueError` or a generic collaborator `Exception`. -/
def PyError.isFileError : PyError → Bool
  | .fileNotFound _ => true
  | .fileNotUploaded _ => true
  | .unauthorizedFileAccess _ => true
  | .fileMerge _ => true
  | .valueError _ => false
  | .storeFailure _ => false

/-- `str(e)` of an exception: its message. -/
def PyError.msg : PyError → String
  | .fileNotFound m => m
  | .fileNotUploaded m => m
  | .unauthorizedFileAccess m => m
  | .fileMerge m => m
  | .valueError m => m
  | .storeFailure m => m

instance {e a : Type} [DecidableEq e] [DecidableEq a] : DecidableEq (Except e a) :=
  fun x y =>
    match x, y with
    | .ok u, .ok v => decidable_of_iff (u = v) (by simp)
    | .ok _, .error _ => .isFalse (by simp)
    | .error _, .ok _ => .isFalse (by simp)
    | .error u, .error v => decidable_of_iff (u = v) (by simp)

/-- `FileEntity` of `app/files/domain/entities.py` (timestamps and the
internal surrogate `id` omitted, see module comment). -/
structure FileEntity where
  file_id : Nat
  name : String
  amount_of_pages : Nat
  owner_external_id : Nat
  description : Option String := none
  file_path : Option String := none
  is_uploaded : Bool := false
deriving DecidableEq, Repr

/-- `CreateFileInput` of `app/files/domain/entities.py`. -/
structure CreateFileInput where
  name : String
  amount_of_pages : Nat
  description : Option String := none
deriving DecidableEq, Repr

/-- `MergeFilesInput` of `app/files/domain/entities.py`. -/
structure MergeFilesInput where
  file_ids : List Nat
deriving DecidableEq, Repr

/-- Combined state of the file-record store (database rows behind
`FileRepository`) and the object store (S3 behind `S3StorageService`),
plus the fresh-id supply standing for `uuid.uuid4()`. -/
structure FileState where
  records : List FileEntity
  blobs : Nat → Option (List Nat)
  nextId : Nat

/-- Fault injection for the external collaborators: each flag says whether
the corresponding remote call raises on the given file id. -/
structure Faults where
  downloadFault : Nat → Bool
  uploadFault : Nat → Bool
  updateFault : Nat → Bool

namespace S3StorageService

/-- `key = f"files/{file_id}.pdf"` in `app/files/persistence/s3_storage.py`. -/
def storageKey (file_id : Nat) : String :=
  "files/" ++ toString file_id ++ ".pdf"

/-- `S3StorageService.upload_file`: puts the object and returns the key, or
raises a wrapped generic exception. -/
def upload_file (faults : Faults) (file_id : Nat) (content : List Nat)
    (s : FileState) : Except PyError String × FileState :=
  if faults.uploadFault file_id then
    (.error (.storeFailure "Failed to upload file to S3"), s)
  else
    (.ok (storageKey file_id),
     { s with blobs := fun k => if k = file_id then some content else s.blobs k })

/-- `S3StorageService.download_file`: returns `none` when the key is absent
(`NoSuchKey`), raises a wrapped generic exception on other failures. -/
def download_file (faults : Faults) (file_id : Nat) (s : FileState) :
    Except PyError (Option (List Nat)) :=
  if faults.downloadFault file_id then
    .error (.storeFailure "Failed to download file from S3")
  else
    .ok (s.blobs file_id)

/-- `S3StorageService.delete_file`. -/
def delete_file (file_id : Nat) (s : FileState) : Bool × FileState :=
  (true, { s with blobs := fun k => if k = file_id then none else s.blobs k })

/-- `S3StorageService.file_exists`. -/
def file_exists (file_id : Nat) (s : FileState) : Bool :=
  (s.blobs file_id).isSome

end S3StorageService

namespace FileRepository

/-- `FileRepository.get_file_by_id` (`File.filter(file_id=...).first()`). -/
def get_file_by_id (file_id : Nat) (s : FileState) : Option FileEntity :=
  s.records.find? (fun r => r.file_id == file_id)

/-- `FileRepository.create_file`: inserts a row with `file_path` null and
`is_uploaded` at its default `False`. -/
def create_file (file_id : Nat) (name : String) (amount_of_pages : Nat)
    (description : Option String) (owner_external_id : Nat) (s : FileState) :
    FileEntity × FileState :=
  let f : FileEntity :=
    { file_id := file_id, name := name, amount_of_pages := amount_of_pages,
      owner_external_id := owner_external_id, description := description,
      file_path := none, is_uploaded := false }
  (f, { s with records := s.records ++ [f] })

/-- `FileRepository.update_file_path`: sets `file_path` and `is_uploaded = True`
on the row in one save; the database write may fail (injected fault). File ids
are unique in the store, so updating every matching row models
`filter(file_id=...).first()` followed by `save()`. -/
def update_file_path (faults : Faults) (file_id : Nat) (file_path : String)
    (s : FileState) : Except PyError Bool × FileState :=
  if faults.updateFault file_id then
    (.error (.storeFailure "database error while saving file"), s)
  else
    match s.records.find? (fun r => r.file_id == file_id) with
    | none => (.ok false, s)
    | some _ =>
        (.ok true,
         { s with records := s.records.map (fun r =>
             if r.file_id == file_id then
               { r with file_path := some file_path, is_uploaded := true }
             else r) })

/-- `FileRepository.delete_file`: removes the row when present. File ids are
unique in the store, so removing every matching row models deleting the first
match. -/
def delete_file (file_id : Nat) (s : FileState) : Bool × FileState :=
  match s.records.find? (fun r => r.file_id == file_id) with
  | none => (false, s)
  | some _ => (true, { s with records := s.records.filter (fun r => r.file_id != file_id) })

end FileRepository

namespace FileService

/-- `FileService.create_file`: generates a fresh id (`uuid.uuid4()`, modelled
by the counter) and inserts the record. -/
def create_file (input : CreateFileInput) (owner_external_id : Nat)
    (s : FileState) : FileEntity × FileState :=
  let file_id := s.nextId
  let p := FileRepository.create_file file_id input.name input.amount_of_pages
      input.description owner_external_id s
  (p.1, { p.2 with nextId := s.nextId + 1 })

/-- `FileService.get_file`: existence first (`FileNotFoundError`), then
ownership (`UnauthorizedFileAccessError`). Read-only. -/
def get_file (file_id : Nat) (owner_external_id : Nat) (s : FileState) :
    Except PyError FileEntity :=
  match FileRepository.get_file_by_id file_id s with
  | none => .error (.fileNotFound ("File " ++ toString file_id ++ " not found"))
  | some f =>
      if f.owner_external_id != owner_external_id then
        .error (.unauthorizedFileAccess "You do not have access to this file")
      else
        .ok f

/-- `FileService.get_user_files`. -/
def get_user_files (owner_external_id : Nat) (s : FileState) : List FileEntity :=
  s.records.filter (fun r => r.owner_external_id == owner_external_id)

/-- `FileService.upload_file_content`: ownership-checked get, then the
content-type check (raising the builtin `ValueError`, not a `FileError`),
then the S3 put, then the row update. -/
def upload_file_content (faults : Faults) (file_id : Nat)
    (owner_external_id : Nat) (file_content : List Nat) (content_type : String)
    (s : FileState) : Except PyError FileEntity × FileState :=
  match get_file file_id owner_external_id s with
  | .error e => (.error e, s)
  | .ok f =>
      if content_type != "application/pdf" then
        (.error (.valueError ("Invalid file type: " ++ content_type ++
            ". Only PDFs are allowed.")), s)
      else
        match S3StorageService.upload_file faults file_id file_content s with
        | (.error e, s1) => (.error e, s1)
        | (.ok storage_path, s1) =>
            match FileRepository.update_file_path faults file_id storage_path s1 with
            | (.error e, s2) => (.error e, s2)
            | (.ok _, s2) =>
                (.ok { f with file_path := some storage_path, is_uploaded := true }, s2)

/-- `FileService.delete_file`: ownership-checked get, blob delete when
uploaded, then row delete. -/
def delete_file (file_id : Nat) (owner_external_id : Nat) (s : FileState) :
    Except PyError Bool × FileState :=
  match get_file file_id owner_external_id s with
  | .error e => (.error e, s)
  | .ok f =>
      let s1 := if f.is_uploaded then (S3StorageService.delete_file file_id s).2 else s
      let p := FileRepository.delete_file file_id s1
      (.ok p.1, p.2)

/-- The per-file validation loop of `FileService.merge_files`: ownership-checked
get, `FileNotUploadedError` when not uploaded, `FileNotFoundError` when the
blob is missing from storage; collects the entities in input order. -/
def checkSources (owner_external_id : Nat) (s : FileState) :
    List Nat → Except PyError (List FileEntity)
  | [] => .ok []
  | file_id :: rest =>
      match get_file file_id owner_external_id s with
      | .error e => .error e
      | .ok f =>
          if !f.is_uploaded then
            .error (.fileNotUploaded ("File " ++ toString file_id ++
                " has not been uploaded yet"))
          else if !(S3StorageService.file_exists file_id s) then
            .error (.fileNotFound ("File " ++ toString file_id ++
                " not found in storage"))
          else
            (checkSources owner_external_id s rest).map (fun fs => f :: fs)

/-- The merged display name: first three source names truncated to 10
characters, joined, with an `_and_<k>_more` suffix past three sources. -/
def mergedName (files_to_merge : List FileEntity) : String :=
  let base := "merged_" ++
    String.intercalate "_" ((files_to_merge.take 3).map (fun f => f.name.take 10))
  if files_to_merge.length > 3 then
    base ++ "_and_" ++ toString (files_to_merge.length - 3) ++ "_more"
  else base

/-- The `try` block of `FileService.merge_files`: download every source blob in
input order (`if not file_content` is true for both `None` and the empty byte
string), combine them with the external merger, upload the combined bytes under
the merged id, then update the merged row. -/
def downloadAll (faults : Faults) (s : FileState) :
    List FileEntity → Except PyError (List (List Nat))
  | [] => .ok []
  | f :: rest =>
      match S3StorageService.download_file faults f.file_id s with
      | .error e => .error e
      | .ok none =>
          .error (.fileNotFound ("Could not download file " ++ toString f.file_id))
      | .ok (some content) =>
          if content.isEmpty then
            .error (.fileNotFound ("Could not download file " ++ toString f.file_id))
          else
            (downloadAll faults s rest).map (fun cs => content :: cs)

/-- Continuation of the `try` block after the downloads. -/
def mergeTry (faults : Faults) (combine : List (List Nat) → Option (List Nat))
    (files_to_merge : List FileEntity) (merged_file : FileEntity)
    (s : FileState) : Except PyError FileEntity × FileState :=
  match downloadAll faults s files_to_merge with
  | .error e => (.error e, s)
  | .ok contents =>
      match combine contents with
      | none => (.error (.storeFailure "PdfMerger could not combine the documents"), s)
      | some merged_bytes =>
          match S3StorageService.upload_file faults merged_file.file_id merged_bytes s with
          | (.error e, s1) => (.error e, s1)
          | (.ok storage_path, s1) =>
              match FileRepository.update_file_path faults merged_file.file_id
                  storage_path s1 with
              | (.error e, s2) => (.error e, s2)
              | (.ok _, s2) =>
                  (.ok { merged_file with
                         file_path := some storage_path, is_uploaded := true }, s2)

/-- `FileService.merge_files`: arity validation, per-file checks, placeholder
creation via the normal `create_file` path, then the `try` block; on any
failure inside the `try` block the placeholder row is deleted and a
`FileMergeError` wrapping `str(e)` is raised. -/
def merge_files (faults : Faults) (combine : List (List Nat) → Option (List Nat))
    (input : MergeFilesInput) (owner_external_id : Nat) (s : FileState) :
    Except PyError FileEntity × FileState :=
  if input.file_ids.length < 2 then
    (.error (.valueError "At least 2 files are required for merging"), s)
  else
    match checkSources owner_external_id s input.file_ids with
    | .error e => (.error e, s)
    | .ok files_to_merge =>
        let total_pages := (files_to_merge.map (fun f => f.amount_of_pages)).sum
        let create_input : CreateFileInput :=
          { name := mergedName files_to_merge,
            amount_of_pages := total_pages,
            description := some ("Merged from " ++
                toString files_to_merge.length ++ " files") }
        let p := create_file create_input owner_external_id s
        match mergeTry faults combine files_to_merge p.1 p.2 with
        | (.ok f, s2) => (.ok f, s2)
        | (.error e, s2) =>
            let q := FileRepository.delete_file p.1.file_id s2
            (.error (.fileMerge ("Error merging files: " ++ e.msg)), q.2)

end FileService

/-- The family of `FileService` operations, used to state state invariants
that hold after every operation. -/
inductive FileOp where
  | createOp (input : CreateFileInput) (owner : Nat)
  | getOp (file_id : Nat) (owner : Nat)
  | listOp (owner : Nat)
  | uploadOp (faults : Faults) (file_id : Nat) (owner : Nat)
      (content : List Nat) (content_type : String)
  | deleteOp (file_id : Nat) (owner : Nat)
  | mergeOp (faults : Faults) (combine : List (List Nat) → Option (List Nat))
      (input : MergeFilesInput) (owner : Nat)

/-- Post-state of running one `FileService` operation (`get_file` and
`get_user_files` are read-only). -/
def runOp : FileOp → FileState → FileState
  | .createOp i o, s => (FileService.create_file i o s).2
  | .getOp _ _, s => s
  | .listOp _, s => s
  | .uploadOp f fid o c ct, s => (FileService.upload_file_content f fid o c ct s).2
  | .deleteOp fid o, s => (FileService.delete_file fid o s).2
  | .mergeOp f c i o, s => (FileService.merge_files f c i o s).2

/-- The data-model invariant of §3: a record is marked uploaded exactly when
its storage key is set. -/
def recordsInv (s : FileState) : Prop :=
  ∀ r ∈ s.records, r.is_uploaded = r.file_path.isSome

instance (s : FileState) : Decidable (recordsInv s) := by
  unfold recordsInv; infer_instance

/-- Well-formedness of the fresh-id supply: every stored record's id was drawn
from the counter, so the next fresh id collides with no existing record. -/
def wfIds (s : FileState) : Prop :=
  ∀ r ∈ s.records, r.file_id < s.nextId

instance (s : FileState) : Decidable (wfIds s) := by
  unfold wfIds; infer_instance

/-! ## Authentication domain
(`app/authentication/domain/service.py`, `app/authentication/persistence/repository.py`,
`app/authentication/models.py`). Time is a `Nat` (seconds); `datetime.utcnow()`
is passed in as `now`; `secrets.token_hex(32)` is passed in as `token`;
`hashlib.sha256(...).hexdigest()` is the parameter `hashFn`. -/

/-- `User` row of `app/authentication/models.py`. -/
structure UserRec where
  id : Nat
  external_id : Nat
  username : String
  email : String
  password_hash : String
deriving DecidableEq, Repr

/-- `UserEntity` of `app/authentication/domain/entities.py`. -/
structure UserEntity where
  id : Nat
  external_id : Nat
  username : String
  email : String
deriving DecidableEq, Repr

/-- `SessionEntity` of `app/authentication/domain/entities.py`, also standing
for the `Session` row (same fields minus `created_at`). -/
structure SessionEntity where
  id : Nat
  token : String
  user_id : Nat
  expires_at : Nat
  is_active : Bool
deriving DecidableEq, Repr

/-- `LoginInput` of `app/authentication/domain/entities.py`. -/
structure LoginInput where
  username : String
  password : String
deriving DecidableEq, Repr

/-- State of the credential store and the session store. -/
structure AuthState where
  users : List UserRec
  sessions : List SessionEntity
deriving DecidableEq, Repr

/-- The `AuthenticationError` hierarchy of
`app/authentication/domain/exceptions.py`. -/
inductive AuthError where
  | userAlreadyExists (msg : String)
  | invalidCredentials (msg : String)
  | sessionNotFound (msg : String)
  | invalidSession (msg : String)
deriving DecidableEq, Repr

namespace UserRepository

/-- Projection of a `User` row to the domain entity. -/
def toEntity (u : UserRec) : UserEntity :=
  { id := u.id, external_id := u.external_id, username := u.username,
    email := u.email }

/-- `UserRepository.verify_password`: `None` both when the username is unknown
and when the stored hash does not match. -/
def verify_password (hashFn : String → String) (username password : String)
    (s : AuthState) : Option UserEntity :=
  match s.users.find? (fun u => u.username == username) with
  | none => none
  | some u =>
      if hashFn password != u.password_hash then none
      else some (toEntity u)

end UserRepository

namespace SessionRepository

/-- `Session.create_for_user`: fresh token, `expires_at = now + 24h`,
active by default. -/
def create_session (token : String) (now : Nat) (user_id : Nat)
    (s : AuthState) : SessionEntity × AuthState :=
  let sess : SessionEntity :=
    { id := s.sessions.length, token := token, user_id := user_id,
      expires_at := now + 24 * 3600, is_active := true }
  (sess, { s with sessions := s.sessions ++ [sess] })

/-- `SessionRepository.get_session` (`Session.filter(token=...).first()`). -/
def get_session (token : String) (s : AuthState) : Option SessionEntity :=
  s.sessions.find? (fun x => x.token == token)

/-- Deactivate the first active session with the given token, if any
(`Session.filter(token=token, is_active=True).first()` then `save()`). -/
def deactivateFirst (token : String) :
    List SessionEntity → Option (List SessionEntity)
  | [] => none
  | x :: rest =>
      if x.token == token && x.is_active then
        some ({ x with is_active := false } :: rest)
      else
        (deactivateFirst token rest).map (fun xs => x :: xs)

/-- `SessionRepository.invalidate_session`: `False` when no active session
matches the token, otherwise flips `is_active` off on the matching row. -/
def invalidate_session (token : String) (s : AuthState) : Bool × AuthState :=
  match deactivateFirst token s.sessions with
  | none => (false, s)
  | some ss => (true, { s with sessions := ss })

/-- `SessionRepository.get_user_by_session`: the user behind the first active
session with the token. -/
def get_user_by_session (token : String) (s : AuthState) : Option UserEntity :=
  match s.sessions.find? (fun x => x.token == token && x.is_active) with
  | none => none
  | some sess =>
      match s.users.find? (fun u => u.id == sess.user_id) with
      | none => none
      | some u => some (UserRepository.toEntity u)

end SessionRepository

namespace AuthenticationService

/-- `AuthenticationService.login`: verify credentials, then create a session;
a failed verification — unknown username or wrong password alike — raises
`InvalidCredentialsError`. -/
def login (hashFn : String → String) (input : LoginInput) (token : String)
    (now : Nat) (s : AuthState) : Except AuthError SessionEntity × AuthState :=
  match UserRepository.verify_password hashFn input.username input.password s with
  | none => (.error (.invalidCredentials "Invalid username or password"), s)
  | some user =>
      let p := SessionRepository.create_session token now user.id s
      (.ok p.1, p.2)

/-- `AuthenticationService.logout`: raises `SessionNotFoundError` when
`invalidate_session` reports no active session for the token. -/
def logout (token : String) (s : AuthState) : Except AuthError Bool × AuthState :=
  let p := SessionRepository.invalidate_session token s
  if p.1 then (.ok true, p.2)
  else (.error (.sessionNotFound "Session not found or already invalidated"), p.2)

/-- `AuthenticationService.introspect`: missing or inactive session raises
`InvalidSessionError`; an active session past `expires_at` is deactivated as a
side effect before `InvalidSessionError` is raised (lazy self-healing expiry);
otherwise the session's user is resolved. -/
def introspect (now : Nat) (token : String) (s : AuthState) :
    Except AuthError UserEntity × AuthState :=
  match SessionRepository.get_session token s with
  | none => (.error (.invalidSession "Invalid or expired session"), s)
  | some sess =>
      if !sess.is_active then
        (.error (.invalidSession "Invalid or expired session"), s)
      else if sess.expires_at < now then
        let p := SessionRepository.invalidate_session token s
        (.error (.invalidSession "Session expired"), p.2)
      else
        match SessionRepository.get_user_by_session token s with
        | none => (.error (.invalidSession "User not found for session"), s)
        | some user => (.ok user, s)

end AuthenticationService

/-! ## External-id generation
(`User.create_with_external_id` in `app/authentication/models.py`). -/

/-- Observable state of the candidate-generation loop after a number of
iterations. -/
inductive LoopStatus where
  | running
  | found (external_id : Nat)
  | failedLoudly
deriving DecidableEq, Repr

/-- Embeds the `while True` candidate-generation loop of
`User.create_with_external_id`: `cands i` is the i-th value drawn from
`secrets.randbelow(1000000000) + 1` and `existsCheck v` is the store lookup
`User.filter(external_id=v).exists()`. After `n` iterations the loop has
either broken out with the first collision-free candidate or is still
running; the source contains no attempt cap, so no branch produces
`failedLoudly`. -/
def create_with_external_id_status (existsCheck : Nat → Bool) (cands : Nat → Nat) :
    Nat → LoopStatus
  | 0 => .running
  | n + 1 =>
      match create_with_external_id_status existsCheck cands n with
      | .running =>
          if existsCheck (cands n) then .running else .found (cands n)
      | .found v => .found v
      | .failedLoudly => .failedLoudly

/-! ## Sample data for concrete evaluations -/

/-- An uploaded 3-page file owned by user 1. -/
def sampleRec0 : FileEntity :=
  { file_id := 0, name := "a", amount_of_pages := 3, owner_external_id := 1,
    description := none, file_path := some "files/0.pdf", is_uploaded := true }

/-- An uploaded 5-page file owned by user 1. -/
def sampleRec1 : FileEntity :=
  { file_id := 1, name := "b", amount_of_pages := 5, owner_external_id := 1,
    description := none, file_path := some "files/1.pdf", is_uploaded := true }

/-- Two uploaded files of user 1, with their blobs in the object store. -/
def sampleState : FileState :=
  { records := [sampleRec0, sampleRec1],
    blobs := fun k => if k = 0 then some [10] else if k = 1 then some [20] else none,
    nextId := 2 }

/-- No collaborator call fails. -/
def noFaults : Faults :=
  { downloadFault := fun _ => false, uploadFault := fun _ => false,
    updateFault := fun _ => false }

/-- A total stand-in for `PdfMerger`: concatenates the byte streams. -/
def joinCombine : List (List Nat) → Option (List Nat) :=
  fun ls => some ls.flatten

/-- Empty credential and session stores. -/
def authEmpty : AuthState := { users := [], sessions := [] }

/-- A registered user (hash function taken to be the identity in samples). -/
def sampleUser : UserRec :=
  { id := 1, external_id := 7, username := "alice", email := "alice@x.test",
    password_hash := "secret1" }

/-- One registered user, no sessions. -/
def authOneUser : AuthState := { users := [sampleUser], sessions := [] }

/-- A session for `sampleUser` that expired at time 10. -/
def sampleSession : SessionEntity :=
  { id := 0, token := "tok", user_id := 1, expires_at := 10, is_active := true }

/-- One user with one (expired, still active) session. -/
def authExpired : AuthState := { users := [sampleUser], sessions := [sampleSession] }

/-!
## Claim theorems
-/

/-- Claim C8: a merge invocation with fewer than two file ids fails with the
arity `ValueError` and returns the state untouched — no record-store or
object-store effect happens before (or after) the validation. -/
theorem merge_arity_validation (faults : Faults)
    (combine : List (List Nat) → Option (List Nat)) (input : MergeFilesInput)
    (owner : Nat) (s : FileState) (h : input.file_ids.length < 2) :
    FileService.merge_files faults combine input owner s =
      (.error (.valueError "At least 2 files are required for merging"), s) := by
  simp [FileService.merge_files, h]

theorem merge_arity_validation_witness :
    ([] : List Nat).length < 2 ∧
      FileService.merge_files noFaults joinCombine ⟨[]⟩ 1 sampleState =
        (.error (.valueError "At least 2 files are required for merging"),
         sampleState) :=
  ⟨by decide, merge_arity_validation noFaults joinCombine ⟨[]⟩ 1 sampleState (by decide)⟩

/-- Claim C3: the ownership-checked access shared by `get_file`,
`upload_file_content` and `delete_file` checks existence strictly before
ownership: a missing record yields `FileNotFoundError`, an existing record
with a different owner yields `UnauthorizedFileAccessError`, with no
constraint on the file's upload state, and the state is untouched. -/
theorem ownership_check_order (file_id owner : Nat) (s : FileState)
    (faults : Faults) (content : List Nat) (ct : String) :
    (FileRepository.get_file_by_id file_id s = none →
      FileService.get_file file_id owner s =
        .error (.fileNotFound ("File " ++ toString file_id ++ " not found")) ∧
      FileService.upload_file_content faults file_id owner content ct s =
        (.error (.fileNotFound ("File " ++ toString file_id ++ " not found")), s) ∧
      FileService.delete_file file_id owner s =
        (.error (.fileNotFound ("File " ++ toString file_id ++ " not found")), s)) ∧
    (∀ f, FileRepository.get_file_by_id file_id s = some f →
      f.owner_external_id ≠ owner →
      FileService.get_file file_id owner s =
        .error (.unauthorizedFileAccess "You do not have access to this file") ∧
      FileService.upload_file_content faults file_id owner content ct s =
        (.error (.unauthorizedFileAccess "You do not have access to this file"), s) ∧
      FileService.delete_file file_id owner s =
        (.error (.unauthorizedFileAccess "You do not have access to this file"), s)) := by
  constructor
  · intro h
    refine ⟨?_, ?_, ?_⟩ <;>
      simp [FileService.get_file, FileService.upload_file_content,
        FileService.delete_file, h]
  · intro f hf ho
    refine ⟨?_, ?_, ?_⟩ <;>
      simp [FileService.get_file, FileService.upload_file_content,
        FileService.delete_file, hf, bne_iff_ne, ho]

theorem ownership_check_order_witness :
    (FileRepository.get_file_by_id 5 sampleState = none ∧
      FileService.get_file 5 1 sampleState =
        .error (.fileNotFound ("File " ++ toString (5 : Nat) ++ " not found"))) ∧
    (FileRepository.get_file_by_id 0 sampleState = some sampleRec0 ∧
      sampleRec0.owner_external_id ≠ 2 ∧
      FileService.get_file 0 2 sampleState =
        .error (.unauthorizedFileAccess "You do not have access to this file")) :=
  ⟨⟨by decide,
    ((ownership_check_order 5 1 sampleState noFaults [] "application/pdf").1
      (by decide)).1⟩,
   ⟨by decide, by decide,
    ((ownership_check_order 0 2 sampleState noFaults [] "application/pdf").2
      sampleRec0 (by decide) (by decide)).1⟩⟩

/-- Claim C5: a failing login — unknown username or non-verifying password —
always surfaces as exactly the `InvalidCredentialsError` with the one shared
message: both causes produce it, and no failing login produces anything
else (and the state is unchanged). -/
theorem login_failure_indistinguishable (hashFn : String → String)
    (input : LoginInput) (token : String) (now : Nat) (s : AuthState) :
    (s.users.find? (fun u => u.username == input.username) = none →
      AuthenticationService.login hashFn input token now s =
        (.error (.invalidCredentials "Invalid username or password"), s)) ∧
    (∀ u, s.users.find? (fun u => u.username == input.username) = some u →
      hashFn input.password ≠ u.password_hash →
      AuthenticationService.login hashFn input token now s =
        (.error (.invalidCredentials "Invalid username or password"), s)) ∧
    (∀ e s2, AuthenticationService.login hashFn input token now s = (.error e, s2) →
      e = .invalidCredentials "Invalid username or password" ∧ s2 = s) := by
  refine ⟨?_, ?_, ?_⟩
  · intro h
    simp [AuthenticationService.login, UserRepository.verify_password, h]
  · intro u hu hne
    simp [AuthenticationService.login, UserRepository.verify_password, hu,
      bne_iff_ne, hne]
  · intro e s2 h
    unfold AuthenticationService.login at h
    rcases hv : UserRepository.verify_password hashFn input.username input.password s with
      _ | u
    · rw [hv] at h
      simp only [Prod.mk.injEq, Except.error.injEq] at h
      exact ⟨h.1.symm, h.2.symm⟩
    · rw [hv] at h
      simp at h

theorem login_failure_indistinguishable_witness :
    (authEmpty.users.find? (fun u => u.username == "alice") = none ∧
      AuthenticationService.login (fun p => p) ⟨"alice", "pw"⟩ "tok" 0 authEmpty =
        (.error (.invalidCredentials "Invalid username or password"), authEmpty)) ∧
    (authOneUser.users.find? (fun u => u.username == "alice") = some sampleUser ∧
      (fun p => p) "wrongpw" ≠ sampleUser.password_hash ∧
      AuthenticationService.login (fun p => p) ⟨"alice", "wrongpw"⟩ "tok" 0 authOneUser =
        (.error (.invalidCredentials "Invalid username or password"), authOneUser)) :=
  ⟨⟨by decide,
    (login_failure_indistinguishable (fun p => p) ⟨"alice", "pw"⟩ "tok" 0 authEmpty).1
      (by decide)⟩,
   ⟨by decide, by decide,
    (login_failure_indistinguishable (fun p => p) ⟨"alice", "wrongpw"⟩ "tok" 0
        authOneUser).2.1 sampleUser (by decide) (by decide)⟩⟩

/-- Claim C9, counterexample: an owner's upload with a non-PDF declared
content type fails with the builtin `ValueError` — an exception outside the
`FileError` hierarchy — so the failure is not a typed `InvalidContentType`
domain condition (no such class exists in `app/files/domain/exceptions.py`). -/
theorem upload_content_type_not_typed_cex :
    (FileService.upload_file_content noFaults 0 1 [7] "text/plain" sampleState).1 =
      .error (.valueError "Invalid file type: text/plain. Only PDFs are allowed.") ∧
    PyError.isFileError
      (.valueError "Invalid file type: text/plain. Only PDFs are allowed.") = false := by
  constructor
  · decide
  · rfl

/-- Claim C9 (amended): an owner's upload with a declared content type other
than `application/pdf` fails with the builtin `ValueError` (not a `FileError`),
raised after the ownership-checked get and before any store write: the state —
object store and records alike — is returned unchanged. -/
theorem upload_content_type_valueerror (faults : Faults) (file_id owner : Nat)
    (content : List Nat) (content_type : String) (s : FileState) (f : FileEntity)
    (hget : FileService.get_file file_id owner s = .ok f)
    (hct : content_type ≠ "application/pdf") :
    FileService.upload_file_content faults file_id owner content content_type s =
      (.error (.valueError ("Invalid file type: " ++ content_type ++
          ". Only PDFs are allowed.")), s) ∧
    PyError.isFileError (.valueError ("Invalid file type: " ++ content_type ++
        ". Only PDFs are allowed.")) = false := by
  refine ⟨?_, rfl⟩
  simp [FileService.upload_file_content, hget, bne_iff_ne, hct]

theorem upload_content_type_valueerror_witness :
    FileService.get_file 0 1 sampleState = .ok sampleRec0 ∧
    "text/plain" ≠ "application/pdf" ∧
    FileService.upload_file_content noFaults 0 1 [7] "text/plain" sampleState =
      (.error (.valueError ("Invalid file type: " ++ "text/plain" ++
          ". Only PDFs are allowed.")), sampleState) :=
  ⟨by decide, by decide,
   (upload_content_type_valueerror noFaults 0 1 [7] "text/plain" sampleState
      sampleRec0 (by decide) (by decide)).1⟩

/-- Under perpetual collision the generation loop is still running after any
number of iterations. -/
theorem create_loop_all_collide (n : Nat) :
    create_with_external_id_status (fun _ => true) (fun _ => 0) n = .running := by
  induction n with
  | zero => rfl
  | succ n ih => simp [create_with_external_id_status, ih]

/-- Claim C7, counterexample: the `while True` loop of
`User.create_with_external_id` has no attempt cap — when every candidate
collides there is no iteration count at which the loop has stopped (found a
value or failed loudly); it loops forever instead of capping attempts. -/
theorem external_id_loop_unbounded_cex :
    ¬ ∃ n : Nat,
      create_with_external_id_status (fun _ => true) (fun _ => 0) n ≠ .running := by
  rintro ⟨n, hn⟩
  exact hn (create_loop_all_collide n)

/-- The loop never reaches a loud-failure state. -/
theorem create_loop_no_loud_failure (existsCheck : Nat → Bool) (cands : Nat → Nat)
    (n : Nat) :
    create_with_external_id_status existsCheck cands n ≠ .failedLoudly := by
  induction n with
  | zero => simp [create_with_external_id_status]
  | succ n ih =>
      rcases h : create_with_external_id_status existsCheck cands n with _ | v | _
      · simp only [create_with_external_id_status, h]
        split <;> simp
      · simp only [create_with_external_id_status, h]
        simp
      · exact absurd h ih

/-- Any value the loop breaks out with passed the collision check. -/
theorem create_loop_found_free (existsCheck : Nat → Bool) (cands : Nat → Nat)
    (n : Nat) (v : Nat)
    (h : create_with_external_id_status existsCheck cands n = .found v) :
    existsCheck v = false := by
  induction n with
  | zero => simp [create_with_external_id_status] at h
  | succ n ih =>
      rw [create_with_external_id_status] at h
      rcases hp : create_with_external_id_status existsCheck cands n with _ | w | _
      · rw [hp] at h
        rcases hc : existsCheck (cands n) with _ | _
        · rw [hc] at h
          simp at h
          rw [← h]
          exact hc
        · rw [hc] at h
          simp at h
      · rw [hp] at h
        simp at h
        subst h
        exact ih hp
      · exact absurd hp (create_loop_no_loud_failure existsCheck cands n)

/-- Claim C7 (amended): the external-id generation of
`User.create_with_external_id` retries candidates until a collision-free one
is found — any value it breaks out with passed the store collision check, and
a collision-free draw ends the loop — but the loop is unbounded: it has no
attempt cap and no loud-failure outcome. -/
theorem external_id_loop_retry_until_free (existsCheck : Nat → Bool)
    (cands : Nat → Nat) (n : Nat) :
    (create_with_external_id_status existsCheck cands n ≠ .failedLoudly) ∧
    (∀ v, create_with_external_id_status existsCheck cands n = .found v →
      existsCheck v = false) ∧
    (existsCheck (cands n) = false →
      create_with_external_id_status existsCheck cands (n + 1) ≠ .running) := by
  refine ⟨create_loop_no_loud_failure existsCheck cands n,
    fun v hv => create_loop_found_free existsCheck cands n v hv, ?_⟩
  intro hfree
  rcases hp : create_with_external_id_status existsCheck cands n with _ | w | _
  · simp only [create_with_external_id_status, hp]
    simp [hfree]
  · simp only [create_with_external_id_status, hp]
    simp
  · exact absurd hp (create_loop_no_loud_failure existsCheck cands n)

theorem external_id_loop_retry_until_free_witness :
    (create_with_external_id_status (fun _ => true) (fun i => i) 5 ≠ .failedLoudly) ∧
    (create_with_external_id_status (fun _ => false) (fun i => i) 1 ≠ .running) ∧
    create_with_external_id_status (fun _ => false) (fun i => i) 1 = .found 0 :=
  ⟨(external_id_loop_retry_until_free (fun _ => true) (fun i => i) 5).1,
   (external_id_loop_retry_until_free (fun _ => false) (fun i => i) 0).2.2 rfl,
   by decide⟩

/-- A successful `mergeTry` returns the placeholder entity with a storage path
set and `is_uploaded` true, all other fields unchanged. -/
theorem mergeTry_ok_shape (faults : Faults)
    (combine : List (List Nat) → Option (List Nat)) (files : List FileEntity)
    (merged : FileEntity) (s : FileState) (f : FileEntity) (s2 : FileState)
    (h : FileService.mergeTry faults combine files merged s = (.ok f, s2)) :
    ∃ sp, f = { merged with file_path := some sp, is_uploaded := true } := by
  unfold FileService.mergeTry at h
  split at h
  · simp at h
  · split at h
    · simp at h
    · split at h
      · simp at h
      · split at h
        · simp at h
        · rw [Prod.mk.injEq] at h
          obtain ⟨h1, -⟩ := h
          rw [Except.ok.injEq] at h1
          exact ⟨_, h1.symm⟩

/-- The sample merge run on two uploaded 3- and 5-page files. -/
def mergeRunSample : Except PyError FileEntity × FileState :=
  FileService.merge_files noFaults joinCombine ⟨[0, 1]⟩ 1 sampleState

/-- The merged file the sample run produces. -/
def mergedSample : FileEntity :=
  { file_id := 2, name := "merged_a_b", amount_of_pages := 8,
    owner_external_id := 1, description := some "Merged from 2 files",
    file_path := some "files/2.pdf", is_uploaded := true }

/-- Claim C2: a successful merge returns a file whose page count is the exact
sum of the constituent records' declared page counts — independent of the
blob contents, since `combine` is arbitrary — and whose `is_uploaded` flag is
true. -/
theorem merge_success_pages_sum (faults : Faults)
    (combine : List (List Nat) → Option (List Nat)) (input : MergeFilesInput)
    (owner : Nat) (s : FileState) (files : List FileEntity) (f : FileEntity)
    (s2 : FileState)
    (hchk : FileService.checkSources owner s input.file_ids = .ok files)
    (hrun : FileService.merge_files faults combine input owner s = (.ok f, s2)) :
    f.amount_of_pages = (files.map (fun x => x.amount_of_pages)).sum ∧
    f.is_uploaded = true := by
  unfold FileService.merge_files at hrun
  by_cases hlen : input.file_ids.length < 2
  · rw [if_pos hlen] at hrun
    simp at hrun
  · rw [if_neg hlen, hchk] at hrun
    simp only [] at hrun
    split at hrun
    · rename_i f' s' heq
      obtain ⟨sp, hsp⟩ := mergeTry_ok_shape _ _ _ _ _ _ _ heq
      rw [Prod.mk.injEq] at hrun
      obtain ⟨h1, -⟩ := hrun
      rw [Except.ok.injEq] at h1
      rw [← h1, hsp]
      exact ⟨rfl, rfl⟩
    · simp at hrun

theorem merge_success_pages_sum_witness :
    FileService.checkSources 1 sampleState [0, 1] = .ok [sampleRec0, sampleRec1] ∧
    mergeRunSample = (.ok mergedSample, mergeRunSample.2) ∧
    mergedSample.amount_of_pages =
      (([sampleRec0, sampleRec1]).map (fun x => x.amount_of_pages)).sum ∧
    mergedSample.is_uploaded = true := by
  have h1 : mergeRunSample.1 = .ok mergedSample := by decide
  have h2 : mergeRunSample = (.ok mergedSample, mergeRunSample.2) := by
    rw [← h1]
  have h3 := merge_success_pages_sum noFaults joinCombine ⟨[0, 1]⟩ 1 sampleState
    [sampleRec0, sampleRec1] mergedSample mergeRunSample.2 (by decide) h2
  exact ⟨by decide, h2, h3.1, h3.2⟩

/-- With store-unique tokens, two stored sessions sharing a token coincide. -/
theorem mem_token_eq (l : List SessionEntity) :
    l.Pairwise (fun a b => a.token ≠ b.token) → ∀ x y : SessionEntity,
      x ∈ l → y ∈ l → x.token = y.token → x = y := by
  induction l with
  | nil => intro _ x y hx _ _; exact absurd hx (List.not_mem_nil x)
  | cons a rest ih =>
      intro huniq x y hx hy h
      rw [List.pairwise_cons] at huniq
      rcases List.mem_cons.mp hx with rfl | hx'
      · rcases List.mem_cons.mp hy with rfl | hy'
        · rfl
        · exact absurd h (huniq.1 y hy')
      · rcases List.mem_cons.mp hy with rfl | hy'
        · exact absurd h.symm (huniq.1 x hx')
        · exact ih huniq.2 x y hx' hy' h

/-- With store-unique tokens, the token lookup finds exactly the stored
session carrying it. -/
theorem find_token_unique (t : String) (l : List SessionEntity) :
    l.Pairwise (fun a b => a.token ≠ b.token) → ∀ sess : SessionEntity,
      sess ∈ l → sess.token = t →
      l.find? (fun x => x.token == t) = some sess := by
  induction l with
  | nil => intro _ sess h _; exact absurd h (List.not_mem_nil sess)
  | cons a rest ih =>
      intro huniq sess hmem htok
      rw [List.pairwise_cons] at huniq
      rcases List.mem_cons.mp hmem with rfl | hmem'
      · simp [List.find?_cons, htok]
      · have hne : a.token ≠ t := fun hat =>
          huniq.1 sess hmem' (hat.trans htok.symm)
        rw [List.find?_cons_of_neg _ (by simp [hne])]
        exact ih huniq.2 sess hmem' htok

/-- When every stored session with the token is already inactive,
`invalidate_session` finds nothing to deactivate. -/
theorem deactivateFirst_none (t : String) (l : List SessionEntity) :
    (∀ x ∈ l, x.token = t → x.is_active = false) →
    SessionRepository.deactivateFirst t l = none := by
  induction l with
  | nil => intro _; rfl
  | cons a rest ih =>
      intro h
      have ha : (a.token == t && a.is_active) = false := by
        by_cases hat : a.token = t
        · have := h a (List.mem_cons_self a rest) hat
          simp [hat, this]
        · simp [hat]
      unfold SessionRepository.deactivateFirst
      rw [ha]
      simp
      exact ih (fun x hx hxt => h x (List.mem_cons_of_mem a hx) hxt)

/-- With store-unique tokens, deactivating an active stored session succeeds
and afterwards every stored session with that token is its deactivated copy. -/
theorem deactivateFirst_spec (t : String) (l : List SessionEntity) :
    l.Pairwise (fun a b => a.token ≠ b.token) → ∀ sess : SessionEntity,
      sess ∈ l → sess.token = t → sess.is_active = true →
      ∃ ss, SessionRepository.deactivateFirst t l = some ss ∧
        ({ sess with is_active := false } ∈ ss) ∧
        (∀ x ∈ ss, x.token = t → x = { sess with is_active := false }) := by
  induction l with
  | nil => intro _ sess h _ _; exact absurd h (List.not_mem_nil sess)
  | cons a rest ih =>
      intro huniq sess hmem htok hact
      rw [List.pairwise_cons] at huniq
      rcases List.mem_cons.mp hmem with rfl | hmem'
      · refine ⟨{ sess with is_active := false } :: rest, ?_, List.mem_cons_self _ _, ?_⟩
        · unfold SessionRepository.deactivateFirst
          rw [if_pos (by simp [htok, hact])]
        · intro x hx hxt
          rcases List.mem_cons.mp hx with rfl | hx'
          · rfl
          · exact absurd (htok.trans hxt.symm) (huniq.1 x hx')
      · have hne : a.token ≠ t := fun hat =>
          huniq.1 sess hmem' (hat.trans htok.symm)
        obtain ⟨ss', hd, hmm, hall⟩ := ih huniq.2 sess hmem' htok hact
        refine ⟨a :: ss', ?_, List.mem_cons_of_mem a hmm, ?_⟩
        · unfold SessionRepository.deactivateFirst
          rw [if_neg (by simp [hne]), hd]
          rfl
        · intro x hx hxt
          rcases List.mem_cons.mp hx with rfl | hx'
          · exact absurd hxt hne
          · exact hall x hx' hxt

/-- Claim C4: introspecting a stored session whose expiry has passed raises
`InvalidSessionError`, leaves every stored session with that token inactive
(deactivating it as a side effect when it was still active — the record
persists, deactivated), and a subsequent logout with the same token raises
`SessionNotFoundError`. -/
theorem introspect_expired_self_healing (now : Nat) (t : String) (s : AuthState)
    (huniq : s.sessions.Pairwise (fun a b => a.token ≠ b.token))
    (sess : SessionEntity) (hmem : sess ∈ s.sessions) (htok : sess.token = t)
    (hexp : sess.expires_at < now) :
    ∃ m s2,
      AuthenticationService.introspect now t s = (.error (.invalidSession m), s2) ∧
      (∀ x ∈ s2.sessions, x.token = t → x.is_active = false) ∧
      (∃ x ∈ s2.sessions, x.token = t) ∧
      AuthenticationService.logout t s2 =
        (.error (.sessionNotFound "Session not found or already invalidated"), s2) := by
  have hfind : SessionRepository.get_session t s = some sess :=
    find_token_unique t s.sessions huniq sess hmem htok
  rcases hact : sess.is_active with _ | _
  · have hinact : ∀ x ∈ s.sessions, x.token = t → x.is_active = false := by
      intro x hx hxt
      have hx' : x = sess :=
        mem_token_eq s.sessions huniq x sess hx hmem (hxt.trans htok.symm)
      rw [hx']
      exact hact
    refine ⟨"Invalid or expired session", s, ?_, hinact, ⟨sess, hmem, htok⟩, ?_⟩
    · unfold AuthenticationService.introspect
      rw [hfind]
      simp [hact]
    · have hnone : SessionRepository.deactivateFirst t s.sessions = none :=
        deactivateFirst_none t s.sessions hinact
      simp [AuthenticationService.logout, SessionRepository.invalidate_session, hnone]
  · obtain ⟨ss, hd, hmm, hall⟩ :=
      deactivateFirst_spec t s.sessions huniq sess hmem htok hact
    have hinact : ∀ x ∈ ss, x.token = t → x.is_active = false := by
      intro x hx hxt
      rw [hall x hx hxt]
    refine ⟨"Session expired", { s with sessions := ss }, ?_, hinact,
      ⟨{ sess with is_active := false }, hmm, htok⟩, ?_⟩
    · unfold AuthenticationService.introspect
      rw [hfind]
      simp [hact, hexp, SessionRepository.invalidate_session, hd]
    · have hnone : SessionRepository.deactivateFirst t ss = none :=
        deactivateFirst_none t ss hinact
      simp [AuthenticationService.logout, SessionRepository.invalidate_session, hnone]

theorem introspect_expired_self_healing_witness :
    authExpired.sessions.Pairwise (fun a b => a.token ≠ b.token) ∧
    sampleSession ∈ authExpired.sessions ∧
    sampleSession.token = "tok" ∧
    sampleSession.expires_at < 100 ∧
    (∃ m s2,
      AuthenticationService.introspect 100 "tok" authExpired =
        (.error (.invalidSession m), s2) ∧
      (∀ x ∈ s2.sessions, x.token = "tok" → x.is_active = false) ∧
      (∃ x ∈ s2.sessions, x.token = "tok") ∧
      AuthenticationService.logout "tok" s2 =
        (.error (.sessionNotFound "Session not found or already invalidated"), s2)) :=
  ⟨by simp [authExpired], by simp [authExpired], rfl, by decide,
   introspect_expired_self_healing 100 "tok" authExpired
     (by simp [authExpired]) sampleSession (by simp [authExpired]) rfl (by decide)⟩

/-- The invariant only inspects the records. -/
theorem recordsInv_of_records_eq (s s' : FileState) (h : s'.records = s.records)
    (hi : recordsInv s) : recordsInv s' := by
  intro r hr
  exact hi r (h ▸ hr)

/-- `create_file` inserts a row with `is_uploaded = false` and no storage key. -/
theorem recordsInv_create (input : CreateFileInput) (owner : Nat) (s : FileState)
    (hi : recordsInv s) : recordsInv (FileService.create_file input owner s).2 := by
  intro r hr
  simp [FileService.create_file, FileRepository.create_file] at hr
  rcases hr with hr | rfl
  · exact hi r hr
  · rfl

/-- `update_file_path` sets the storage key and `is_uploaded = true` in the
same save. -/
theorem recordsInv_update (faults : Faults) (fid : Nat) (path : String)
    (s : FileState) (hi : recordsInv s) :
    recordsInv (FileRepository.update_file_path faults fid path s).2 := by
  unfold FileRepository.update_file_path
  split
  · exact hi
  · split
    · exact hi
    · intro r hr
      simp only [List.mem_map] at hr
      rcases hr with ⟨r0, hr0, rfl⟩
      by_cases h : (r0.file_id == fid) = true
      · simp [h]
      · simp only [h, if_false, Bool.false_eq_true]
        exact hi r0 hr0

/-- Row deletion only narrows the record set. -/
theorem recordsInv_deleteRepo (fid : Nat) (s : FileState) (hi : recordsInv s) :
    recordsInv (FileRepository.delete_file fid s).2 := by
  unfold FileRepository.delete_file
  split
  · exact hi
  · intro r hr
    exact hi r (List.mem_of_mem_filter hr)

/-- The object-store put never touches the records. -/
theorem upload_file_records (faults : Faults) (fid : Nat) (c : List Nat)
    (s : FileState) :
    ((S3StorageService.upload_file faults fid c s).2).records = s.records := by
  unfold S3StorageService.upload_file
  split <;> rfl

/-- The `try` block of the merge preserves the invariant: its only record
mutation is the `update_file_path` of the merged row. -/
theorem recordsInv_mergeTry (faults : Faults)
    (combine : List (List Nat) → Option (List Nat)) (files : List FileEntity)
    (merged : FileEntity) (s : FileState) (hi : recordsInv s) :
    recordsInv (FileService.mergeTry faults combine files merged s).2 := by
  unfold FileService.mergeTry
  split
  · exact hi
  · split
    · exact hi
    · rename_i contents merged_bytes hcmb
      split
      · rename_i e s1 heq
        have hrec := upload_file_records faults merged.file_id merged_bytes s
        rw [heq] at hrec
        exact recordsInv_of_records_eq s s1 hrec hi
      · rename_i sp s1 heq
        have hrec := upload_file_records faults merged.file_id merged_bytes s
        rw [heq] at hrec
        have hi1 : recordsInv s1 := recordsInv_of_records_eq s s1 hrec hi
        split
        · rename_i e s2 heq2
          have := recordsInv_update faults merged.file_id sp s1 hi1
          rw [heq2] at this
          exact this
        · rename_i b s2 heq2
          have := recordsInv_update faults merged.file_id sp s1 hi1
          rw [heq2] at this
          exact this

/-- `upload_file_content` preserves the invariant. -/
theorem recordsInv_upload_content (faults : Faults) (fid : Nat) (owner : Nat)
    (c : List Nat) (ct : String) (s : FileState) (hi : recordsInv s) :
    recordsInv (FileService.upload_file_content faults fid owner c ct s).2 := by
  unfold FileService.upload_file_content
  split
  · exact hi
  · split
    · exact hi
    · split
      · rename_i e s1 heq
        have hrec := upload_file_records faults fid c s
        rw [heq] at hrec
        exact recordsInv_of_records_eq s s1 hrec hi
      · rename_i sp s1 heq
        have hrec := upload_file_records faults fid c s
        rw [heq] at hrec
        have hi1 : recordsInv s1 := recordsInv_of_records_eq s s1 hrec hi
        split
        · rename_i e s2 heq2
          have := recordsInv_update faults fid sp s1 hi1
          rw [heq2] at this
          exact this
        · rename_i b s2 heq2
          have := recordsInv_update faults fid sp s1 hi1
          rw [heq2] at this
          exact this

/-- `delete_file` (service) preserves the invariant. -/
theorem recordsInv_delete_service (fid : Nat) (owner : Nat) (s : FileState)
    (hi : recordsInv s) :
    recordsInv (FileService.delete_file fid owner s).2 := by
  unfold FileService.delete_file
  split
  · exact hi
  · rename_i f _
    by_cases hu : f.is_uploaded = true
    · simp only [hu, if_true]
      exact recordsInv_deleteRepo fid _ hi
    · simp only [hu, if_false, Bool.false_eq_true]
      exact recordsInv_deleteRepo fid s hi

/-- `merge_files` preserves the invariant on every path, including the
compensating delete. -/
theorem recordsInv_merge (faults : Faults)
    (combine : List (List Nat) → Option (List Nat)) (input : MergeFilesInput)
    (owner : Nat) (s : FileState) (hi : recordsInv s) :
    recordsInv (FileService.merge_files faults combine input owner s).2 := by
  unfold FileService.merge_files
  split
  · exact hi
  · split
    · exact hi
    · rename_i files hchk
      dsimp only
      have hic : recordsInv (FileService.create_file
          { name := FileService.mergedName files,
            amount_of_pages := (files.map (fun f => f.amount_of_pages)).sum,
            description := some ("Merged from " ++ toString files.length ++ " files") }
          owner s).2 := recordsInv_create _ owner s hi
      split
      · rename_i f s2 heq
        have := recordsInv_mergeTry faults combine files
          (FileService.create_file
            { name := FileService.mergedName files,
              amount_of_pages := (files.map (fun f => f.amount_of_pages)).sum,
              description := some ("Merged from " ++ toString files.length ++ " files") }
            owner s).1
          (FileService.create_file
            { name := FileService.mergedName files,
              amount_of_pages := (files.map (fun f => f.amount_of_pages)).sum,
              description := some ("Merged from " ++ toString files.length ++ " files") }
            owner s).2 hic
        rw [heq] at this
        exact this
      · rename_i e s2 heq
        have h2 := recordsInv_mergeTry faults combine files
          (FileService.create_file
            { name := FileService.mergedName files,
              amount_of_pages := (files.map (fun f => f.amount_of_pages)).sum,
              description := some ("Merged from " ++ toString files.length ++ " files") }
            owner s).1
          (FileService.create_file
            { name := FileService.mergedName files,
              amount_of_pages := (files.map (fun f => f.amount_of_pages)).sum,
              description := some ("Merged from " ++ toString files.length ++ " files") }
            owner s).2 hic
        rw [heq] at h2
        exact recordsInv_deleteRepo _ s2 h2

/-- Claim C6: the invariant `is_uploaded == (storage key is set)` holds after
every `FileService` operation: creation starts records unuploaded with no key,
and the only mutation that sets `is_uploaded` also sets the key in the same
save. -/
theorem is_uploaded_storage_key_invariant (op : FileOp) (s : FileState)
    (h : recordsInv s) : recordsInv (runOp op s) := by
  cases op with
  | createOp i o => exact recordsInv_create i o s h
  | getOp fid o => exact h
  | listOp o => exact h
  | uploadOp f fid o c ct => exact recordsInv_upload_content f fid o c ct s h
  | deleteOp fid o => exact recordsInv_delete_service fid o s h
  | mergeOp f c i o => exact recordsInv_merge f c i o s h

theorem is_uploaded_storage_key_invariant_witness :
    recordsInv sampleState ∧
    recordsInv (runOp (FileOp.createOp ⟨"r", 4, none⟩ 1) sampleState) ∧
    recordsInv (runOp (FileOp.uploadOp noFaults 0 1 [9] "application/pdf"
      ) sampleState) :=
  ⟨by decide,
   is_uploaded_storage_key_invariant (FileOp.createOp ⟨"r", 4, none⟩ 1) sampleState
     (by decide),
   is_uploaded_storage_key_invariant
     (FileOp.uploadOp noFaults 0 1 [9] "application/pdf") sampleState (by decide)⟩

/-- A failed S3 put leaves the state untouched. -/
theorem upload_file_error_state (faults : Faults) (fid : Nat) (c : List Nat)
    (s : FileState) (e : PyError) (s1 : FileState)
    (h : S3StorageService.upload_file faults fid c s = (.error e, s1)) : s1 = s := by
  unfold S3StorageService.upload_file at h
  split at h
  · rw [Prod.mk.injEq] at h
    exact h.2.symm
  · simp at h

/-- A successful S3 put only writes the one key. -/
theorem upload_file_ok_state (faults : Faults) (fid : Nat) (c : List Nat)
    (s : FileState) (sp : String) (s1 : FileState)
    (h : S3StorageService.upload_file faults fid c s = (.ok sp, s1)) :
    s1.records = s.records ∧ s1.nextId = s.nextId ∧ s1.blobs fid = some c ∧
      ∀ k, k ≠ fid → s1.blobs k = s.blobs k := by
  unfold S3StorageService.upload_file at h
  split at h
  · simp at h
  · rw [Prod.mk.injEq] at h
    obtain ⟨-, h2⟩ := h
    rw [← h2]
    exact ⟨rfl, rfl, by simp, fun k hk => by simp [hk]⟩

/-- A failed row update leaves the state untouched. -/
theorem update_file_path_error_state (faults : Faults) (fid : Nat) (p : String)
    (s : FileState) (e : PyError) (s2 : FileState)
    (h : FileRepository.update_file_path faults fid p s = (.error e, s2)) :
    s2 = s := by
  unfold FileRepository.update_file_path at h
  split at h
  · rw [Prod.mk.injEq] at h
    exact h.2.symm
  · split at h <;> simp at h

/-- Row deletion never touches the object store. -/
theorem delete_repo_blobs (fid : Nat) (s : FileState) :
    ((FileRepository.delete_file fid s).2).blobs = s.blobs := by
  unfold FileRepository.delete_file
  split <;> rfl

/-- Deleting a freshly appended row restores the original records. -/
theorem delete_repo_after_append (s : FileState) (g : FileEntity) (st : FileState)
    (hrec : st.records = s.records ++ [g])
    (hfresh : ∀ r ∈ s.records, r.file_id ≠ g.file_id) :
    ((FileRepository.delete_file g.file_id st).2).records = s.records := by
  unfold FileRepository.delete_file
  split
  · rename_i hnone
    exfalso
    have hg : g ∈ st.records := by
      rw [hrec]
      exact List.mem_append_right _ (List.mem_singleton_self g)
    have := List.find?_eq_none.mp hnone g hg
    simp at this
  · rename_i f hsome
    have : st.records.filter (fun r => r.file_id != g.file_id) = s.records := by
      rw [hrec, List.filter_append]
      have h1 : s.records.filter (fun r => r.file_id != g.file_id) = s.records :=
        List.filter_eq_self.mpr (fun r hr => by simp [hfresh r hr])
      have h2 : ([g].filter (fun r => r.file_id != g.file_id)) = [] := by simp
      rw [h1, h2, List.append_nil]
    exact this

/-- A failing `try` block of the merge leaves the record store exactly as it
was when the block started, and touches no blob other than the merged id's. -/
theorem mergeTry_error_state (faults : Faults)
    (combine : List (List Nat) → Option (List Nat)) (files : List FileEntity)
    (merged : FileEntity) (s : FileState) (e : PyError) (s2 : FileState)
    (h : FileService.mergeTry faults combine files merged s = (.error e, s2)) :
    s2.records = s.records ∧ s2.nextId = s.nextId ∧
      ∀ fid, fid ≠ merged.file_id → s2.blobs fid = s.blobs fid := by
  unfold FileService.mergeTry at h
  split at h
  · rw [Prod.mk.injEq] at h
    rw [← h.2]
    exact ⟨rfl, rfl, fun _ _ => rfl⟩
  · split at h
    · rw [Prod.mk.injEq] at h
      rw [← h.2]
      exact ⟨rfl, rfl, fun _ _ => rfl⟩
    · split at h
      · rename_i e1 s1 heq
        rw [Prod.mk.injEq] at h
        have hs1 : s1 = s := upload_file_error_state faults merged.file_id _ s e1 s1 heq
        rw [← h.2, hs1]
        exact ⟨rfl, rfl, fun _ _ => rfl⟩
      · rename_i sp s1 heq
        have hub := upload_file_ok_state faults merged.file_id _ s sp s1 heq
        split at h
        · rename_i e2 s2' heq2
          rw [Prod.mk.injEq] at h
          have hs2 : s2' = s1 :=
            update_file_path_error_state faults merged.file_id sp s1 e2 s2' heq2
          rw [← h.2, hs2]
          exact ⟨hub.1, hub.2.1, fun fid hf => hub.2.2.2 fid hf⟩
        · simp at h

/-- An ownership-checked get that succeeds means the row lookup found exactly
that record. -/
theorem get_file_ok_find (fid owner : Nat) (s : FileState) (f : FileEntity)
    (h : FileService.get_file fid owner s = .ok f) :
    FileRepository.get_file_by_id fid s = some f := by
  unfold FileService.get_file at h
  split at h
  · simp at h
  · rename_i f' hf'
    split at h
    · simp at h
    · rw [Except.ok.injEq] at h
      rw [hf', h]

/-- Ids accepted by the per-file check phase are ids of stored records. -/
theorem checkSources_ids (owner : Nat) (s : FileState) :
    ∀ ids files, FileService.checkSources owner s ids = .ok files →
      ∀ fid ∈ ids, ∃ f, FileRepository.get_file_by_id fid s = some f := by
  intro ids
  induction ids with
  | nil => intro files _ fid hf; exact absurd hf (List.not_mem_nil fid)
  | cons i rest ih =>
      intro files h fid hf
      unfold FileService.checkSources at h
      split at h
      · simp at h
      · rename_i f hget
        split at h
        · simp at h
        · split at h
          · simp at h
          · rcases List.mem_cons.mp hf with rfl | hf'
            · exact ⟨f, get_file_ok_find fid owner s f hget⟩
            · rcases hrest : FileService.checkSources owner s rest with e | fs
              · rw [hrest] at h
                simp [Except.map] at h
              · exact ih fs hrest fid hf'

/-- Every id with a stored record is below the fresh-id counter. -/
theorem stored_id_lt_nextId (s : FileState) (hwf : wfIds s) (fid : Nat)
    (f : FileEntity) (h : FileRepository.get_file_by_id fid s = some f) :
    fid < s.nextId := by
  unfold FileRepository.get_file_by_id at h
  have hmem := List.mem_of_find?_eq_some h
  have hp := List.find?_some h
  simp at hp
  rw [← hp]
  exact hwf f hmem

/-- Claim C1: when the per-file checks of a merge succeed but the overall call
fails, the failure is a `FileMergeError` wrapping the underlying cause, the
placeholder record has been deleted — the record store is exactly as before
the call — and the blobs of all the source files are untouched. -/
theorem merge_failure_compensation (faults : Faults)
    (combine : List (List Nat) → Option (List Nat)) (input : MergeFilesInput)
    (owner : Nat) (s : FileState) (files : List FileEntity) (err : PyError)
    (s2 : FileState)
    (hwf : wfIds s)
    (hlen : 2 ≤ input.file_ids.length)
    (hchk : FileService.checkSources owner s input.file_ids = .ok files)
    (hrun : FileService.merge_files faults combine input owner s = (.error err, s2)) :
    (∃ m, err = .fileMerge ("Error merging files: " ++ m)) ∧
    s2.records = s.records ∧
    ∀ fid ∈ input.file_ids, s2.blobs fid = s.blobs fid := by
  unfold FileService.merge_files at hrun
  rw [if_neg (by omega), hchk] at hrun
  dsimp only at hrun
  split at hrun
  · simp at hrun
  · rename_i e st heq
    rw [Prod.mk.injEq] at hrun
    obtain ⟨h1, h2⟩ := hrun
    rw [Except.error.injEq] at h1
    have hst := mergeTry_error_state faults combine files _ _ e st heq
    have hrecs : st.records = s.records ++
        [(FileService.create_file
          { name := FileService.mergedName files,
            amount_of_pages := (files.map (fun f => f.amount_of_pages)).sum,
            description := some ("Merged from " ++ toString files.length ++ " files") }
          owner s).1] := hst.1
    have hfresh : ∀ r ∈ s.records, r.file_id ≠
        (FileService.create_file
          { name := FileService.mergedName files,
            amount_of_pages := (files.map (fun f => f.amount_of_pages)).sum,
            description := some ("Merged from " ++ toString files.length ++ " files") }
          owner s).1.file_id :=
      fun r hr => Nat.ne_of_lt (hwf r hr)
    refine ⟨⟨e.msg, h1.symm⟩, ?_, ?_⟩
    · rw [← h2]
      exact delete_repo_after_append s _ st hrecs hfresh
    · intro fid hfid
      obtain ⟨f, hfind⟩ := checkSources_ids owner s input.file_ids files hchk fid hfid
      have hlt := stored_id_lt_nextId s hwf fid f hfind
      have hne : fid ≠ s.nextId := Nat.ne_of_lt hlt
      rw [← h2]
      have hb := delete_repo_blobs
        (FileService.create_file
          { name := FileService.mergedName files,
            amount_of_pages := (files.map (fun f => f.amount_of_pages)).sum,
            description := some ("Merged from " ++ toString files.length ++ " files") }
          owner s).1.file_id st
      rw [congrFun hb fid]
      exact hst.2.2 fid hne

/-- The merge run of the C1 scenario: every S3 download fails. -/
def failFaults : Faults :=
  { downloadFault := fun _ => true, uploadFault := fun _ => false,
    updateFault := fun _ => false }

/-- The C1 sample run. -/
def mergeFailRun : Except PyError FileEntity × FileState :=
  FileService.merge_files failFaults joinCombine ⟨[0, 1]⟩ 1 sampleState

/-- The C1 sample run's error. -/
def mergeFailErr : PyError :=
  .fileMerge ("Error merging files: Failed to download file from S3")

theorem merge_failure_compensation_witness :
    wfIds sampleState ∧ 2 ≤ ([0, 1] : List Nat).length ∧
    FileService.checkSources 1 sampleState [0, 1] = .ok [sampleRec0, sampleRec1] ∧
    (∃ m, mergeFailErr = .fileMerge ("Error merging files: " ++ m)) ∧
    mergeFailRun.2.records = sampleState.records ∧
    mergeFailRun.2.blobs 0 = sampleState.blobs 0 := by
  have h1 : mergeFailRun.1 = .error mergeFailErr := by decide
  have h2 : mergeFailRun = (.error mergeFailErr, mergeFailRun.2) := by rw [← h1]
  have h3 := merge_failure_compensation failFaults joinCombine ⟨[0, 1]⟩ 1 sampleState
    [sampleRec0, sampleRec1] mergeFailErr mergeFailRun.2 (by decide) (by decide)
    (by decide) h2
  exact ⟨by decide, by decide, by decide, h3.1, h3.2.1, h3.2.2 0 (by simp)⟩

/-- The download loop reads the state only through the object store. -/
theorem downloadAll_blobs_congr (faults : Faults) (s1 s2 : FileState)
    (h : s1.blobs = s2.blobs) :
    ∀ files, FileService.downloadAll faults s1 files =
      FileService.downloadAll faults s2 files := by
  intro files
  induction files with
  | nil => rfl
  | cons f rest ih =>
      unfold FileService.downloadAll
      unfold S3StorageService.download_file
      rw [h, ih]

/-- When the downloads and the combine succeed, the S3 put succeeds, and the
row update faults, the `try` block fails with the wrapped database error and
the merged blob already written. -/
theorem mergeTry_at_update_fault (faults : Faults)
    (combine : List (List Nat) → Option (List Nat)) (files : List FileEntity)
    (merged : FileEntity) (s : FileState) (contents : List (List Nat))
    (merged_bytes : List Nat)
    (hdl : FileService.downloadAll faults s files = .ok contents)
    (hcmb : combine contents = some merged_bytes)
    (hupl : faults.uploadFault merged.file_id = false)
    (hupd : faults.updateFault merged.file_id = true) :
    FileService.mergeTry faults combine files merged s =
      (.error (.storeFailure "database error while saving file"),
       { s with blobs := fun k =>
           if k = merged.file_id then some merged_bytes else s.blobs k }) := by
  simp only [FileService.mergeTry, S3StorageService.upload_file,
    FileRepository.update_file_path, hdl, hcmb, hupl, hupd, Bool.false_eq_true,
    if_false, if_true]

/-- Claim C10: the compensating cleanup of a failed merge deletes only the
placeholder metadata record, never an object-store blob: when the merged blob
upload succeeds but the metadata storage-key update faults, the call fails,
the record store is back to its pre-merge contents, and the already-uploaded
merged blob remains in the object store with no metadata record referencing
its id. -/
theorem merge_cleanup_blob_orphan (faults : Faults)
    (combine : List (List Nat) → Option (List Nat)) (input : MergeFilesInput)
    (owner : Nat) (s : FileState) (files : List FileEntity)
    (contents : List (List Nat)) (merged_bytes : List Nat)
    (hwf : wfIds s)
    (hlen : 2 ≤ input.file_ids.length)
    (hchk : FileService.checkSources owner s input.file_ids = .ok files)
    (hdl : FileService.downloadAll faults s files = .ok contents)
    (hcmb : combine contents = some merged_bytes)
    (hupl : faults.uploadFault s.nextId = false)
    (hupd : faults.updateFault s.nextId = true) :
    ∃ s2,
      FileService.merge_files faults combine input owner s =
        (.error (.fileMerge
          ("Error merging files: " ++ "database error while saving file")), s2) ∧
      s2.blobs s.nextId = some merged_bytes ∧
      FileRepository.get_file_by_id s.nextId s2 = none ∧
      s2.records = s.records := by
  have hdl2 : FileService.downloadAll faults
      (FileService.create_file
        { name := FileService.mergedName files,
          amount_of_pages := (files.map (fun f => f.amount_of_pages)).sum,
          description := some ("Merged from " ++ toString files.length ++ " files") }
        owner s).2 files = .ok contents :=
    (downloadAll_blobs_congr faults
      (FileService.create_file
        { name := FileService.mergedName files,
          amount_of_pages := (files.map (fun f => f.amount_of_pages)).sum,
          description := some ("Merged from " ++ toString files.length ++ " files") }
        owner s).2 s rfl files).trans hdl
  have htry := mergeTry_at_update_fault faults combine files
    (FileService.create_file
      { name := FileService.mergedName files,
        amount_of_pages := (files.map (fun f => f.amount_of_pages)).sum,
        description := some ("Merged from " ++ toString files.length ++ " files") }
      owner s).1
    (FileService.create_file
      { name := FileService.mergedName files,
        amount_of_pages := (files.map (fun f => f.amount_of_pages)).sum,
        description := some ("Merged from " ++ toString files.length ++ " files") }
      owner s).2
    contents merged_bytes hdl2 hcmb hupl hupd
  have hxid : (FileService.create_file
      { name := FileService.mergedName files,
        amount_of_pages := (files.map (fun f => f.amount_of_pages)).sum,
        description := some ("Merged from " ++ toString files.length ++ " files") }
      owner s).1.file_id = s.nextId := rfl
  refine ⟨?s2, ?_, ?_, ?_, ?_⟩
  case s2 => exact (FileRepository.delete_file
    (FileService.create_file
      { name := FileService.mergedName files,
        amount_of_pages := (files.map (fun f => f.amount_of_pages)).sum,
        description := some ("Merged from " ++ toString files.length ++ " files") }
      owner s).1.file_id
    { (FileService.create_file
        { name := FileService.mergedName files,
          amount_of_pages := (files.map (fun f => f.amount_of_pages)).sum,
          description := some ("Merged from " ++ toString files.length ++ " files") }
        owner s).2 with
      blobs := fun k =>
        if k = (FileService.create_file
            { name := FileService.mergedName files,
              amount_of_pages := (files.map (fun f => f.amount_of_pages)).sum,
              description := some ("Merged from " ++ toString files.length ++ " files") }
            owner s).1.file_id then some merged_bytes
        else (FileService.create_file
            { name := FileService.mergedName files,
              amount_of_pages := (files.map (fun f => f.amount_of_pages)).sum,
              description := some ("Merged from " ++ toString files.length ++ " files") }
            owner s).2.blobs k }).2
  · unfold FileService.merge_files
    rw [if_neg (by omega), hchk]
    dsimp only
    rw [htry]
    dsimp only [PyError.msg]
  · rw [congrFun (delete_repo_blobs _ _) s.nextId]
    simp [hxid]
  · unfold FileRepository.get_file_by_id
    rw [delete_repo_after_append s _ _ rfl (fun r hr => Nat.ne_of_lt (hwf r hr))]
    apply List.find?_eq_none.mpr
    intro r hr
    simp
    exact Nat.ne_of_lt (hwf r hr)
  · exact delete_repo_after_append s _ _ rfl (fun r hr => Nat.ne_of_lt (hwf r hr))

/-- The C10 scenario: only the metadata update faults. -/
def updFaultOnly : Faults :=
  { downloadFault := fun _ => false, uploadFault := fun _ => false,
    updateFault := fun _ => true }

theorem merge_cleanup_blob_orphan_witness :
    wfIds sampleState ∧ 2 ≤ ([0, 1] : List Nat).length ∧
    FileService.checkSources 1 sampleState [0, 1] = .ok [sampleRec0, sampleRec1] ∧
    FileService.downloadAll updFaultOnly sampleState [sampleRec0, sampleRec1] =
      .ok [[10], [20]] ∧
    joinCombine [[10], [20]] = some [10, 20] ∧
    updFaultOnly.uploadFault sampleState.nextId = false ∧
    updFaultOnly.updateFault sampleState.nextId = true ∧
    (∃ s2,
      FileService.merge_files updFaultOnly joinCombine ⟨[0, 1]⟩ 1 sampleState =
        (.error (.fileMerge
          ("Error merging files: " ++ "database error while saving file")), s2) ∧
      s2.blobs sampleState.nextId = some [10, 20] ∧
      FileRepository.get_file_by_id sampleState.nextId s2 = none ∧
      s2.records = sampleState.records) :=
  ⟨by decide, by decide, by decide, by decide, by decide, by decide, by decide,
   merge_cleanup_blob_orphan updFaultOnly joinCombine ⟨[0, 1]⟩ 1 sampleState
     [sampleRec0, sampleRec1] [[10], [20]] [10, 20] (by decide) (by decide)
     (by decide) (by decide) (by decide) (by decide) (by decide)⟩

end Vault
